import Mathlib

/-!
Verification of the Wild Whatcom financial-data pipeline.

The data-processing code (scripts/process_data.py, reproduced in the repository's
implementation plan) is embedded shallowly: raw spreadsheet cells become an
inductive `RawCell`, Python floats become `ℚ`, Python exceptions become
`Except`, and the pipeline's helper functions (`clean_currency`, `safe_float`,
`safe_divide`), the sankey builder (`calculate_sankey_data`) and the `main`
run structure are translated function by function.
-/

/-- A raw spreadsheet cell as seen by the pipeline: missing (pandas NaN),
already numeric, or a string. -/
inductive RawCell
  | absent
  | num (q : ℚ)
  | str (s : String)
deriving DecidableEq

/-- Pipeline failures.  `sourceNotFound` models pandas failing to open a missing
CSV file; `numericParse` models the `ValueError` raised by Python's
`float(cleaned)` on an unparseable string (the exception message carries the
cleaned string, no logical field name). -/
inductive PErr
  | sourceNotFound
  | numericParse (raw : String)
deriving DecidableEq

/-- The discrete shape of a decimal literal: sign, integer part, fractional
part and the number of fractional digits.  Used to split parsing (decidable)
from rational-number construction. -/
structure DecParts where
  neg : Bool
  intPart : Nat
  fracPart : Nat
  fracLen : Nat
deriving DecidableEq

/-- Digits to a natural number, most significant first. -/
def digitsToNat (cs : List Char) : Nat :=
  cs.foldl (fun a c => 10 * a + (c.toNat - '0'.toNat)) 0

/-- Strip whitespace from both ends, as Python's `str.strip()` and `float()` do. -/
def trimWS (cs : List Char) : List Char :=
  ((cs.dropWhile Char.isWhitespace).reverse.dropWhile Char.isWhitespace).reverse

/-- Parse the decimal fragment accepted by Python's `float`:
optional surrounding whitespace, an optional sign, then digits with an optional
decimal point, with at least one digit present.  (The pipeline's cells hold
currency amounts, so the exponent/inf/nan forms of `float` do not arise.) -/
def parseParts (s : String) : Option DecParts :=
  let cs := trimWS s.data
  let (neg, cs1) :=
    match cs with
    | '-' :: rest => (true, rest)
    | '+' :: rest => (false, rest)
    | rest => (false, rest)
  let (ip, rest1) := cs1.span Char.isDigit
  match rest1 with
  | [] => if ip = [] then none else some ⟨neg, digitsToNat ip, 0, 0⟩
  | '.' :: rest2 =>
    let (fp, rest3) := rest2.span Char.isDigit
    if rest3 ≠ [] then none
    else if ip = [] ∧ fp = [] then none
    else some ⟨neg, digitsToNat ip, digitsToNat fp, fp.length⟩
  | _ => none

/-- The rational value of a parsed decimal literal. -/
def ratOfParts (p : DecParts) : ℚ :=
  (if p.neg then -1 else 1) * ((p.intPart : ℚ) + (p.fracPart : ℚ) / (10 : ℚ) ^ p.fracLen)

/-- `float(s)` on the decimal fragment: `some` value or `none` (a `ValueError`). -/
def parseDecimal (s : String) : Option ℚ :=
  (parseParts s).map ratOfParts

/-- `s.startswith('#')` from the Python helpers. -/
def startsWithHash (s : String) : Bool :=
  match s.data with
  | '#' :: _ => true
  | _ => false

/-- `value.replace('$', '').replace(',', '').strip()` from `clean_currency`. -/
def stripCurrency (s : String) : String :=
  String.mk (trimWS (s.data.filter (fun c => c ≠ '$' ∧ c ≠ ',')))

/-- `clean_currency` from scripts/process_data.py: NaN and error-token or empty
strings map to 0, numbers pass through, other strings are stripped of currency
punctuation and parsed; an unparseable remainder raises (`Except.error`),
carrying the cleaned string exactly as Python's `float(cleaned)` does. -/
def clean_currency : RawCell → Except PErr ℚ
  | RawCell.absent => Except.ok 0
  | RawCell.num q => Except.ok q
  | RawCell.str s =>
    if startsWithHash s || s = "" then Except.ok 0
    else
      let cleaned := stripCurrency s
      if cleaned = "" then Except.ok 0
      else
        match parseDecimal cleaned with
        | some q => Except.ok q
        | none => Except.error (PErr.numericParse cleaned)

/-- `safe_float` from scripts/process_data.py: total on every cell; the bare
`except` clause maps any unparseable string to 0 instead of propagating. -/
def safe_float : RawCell → ℚ
  | RawCell.absent => 0
  | RawCell.num q => q
  | RawCell.str s =>
    if startsWithHash s then 0
    else
      match parseDecimal s with
      | some q => q
      | none => 0

/-- `safe_divide` from scripts/process_data.py. -/
def safe_divide (numerator denominator : ℚ) : ℚ :=
  if denominator = 0 then 0 else numerator / denominator

/-- Modelled from the spec: the pipeline computes `ytd_revenue_variance` as
`safe_divide(...)` with the call-site arguments elided in the source plan;
per spec §4.3 the variance metric is `(actual − budgeted) / budgeted × 100`
with the `safe_divide` zero guard.  `safe_divide` itself is embedded from the
source above. -/
def variance_pct (actual budgeted : ℚ) : ℚ :=
  safe_divide (actual - budgeted) budgeted * 100

/-- The health classification values used by the pipeline and the dashboard. -/
inductive Health
  | good
  | warning
  | critical
deriving DecidableEq

/-- The reserve-health classification from `main` in scripts/process_data.py:
`'good' if months >= 3 else 'warning' if months >= 2 else 'critical'`. -/
def reserve_health (months : ℚ) : Health :=
  if months ≥ 3 then Health.good
  else if months ≥ 2 then Health.warning
  else Health.critical

/-- A category's actual and budgeted amounts (the CategoryRecord of the spec). -/
structure CatAmounts where
  actual : ℚ
  budgeted : ℚ
deriving DecidableEq

/-- The revenue block of the FY26 annual data, with the category keys used by
RevenuePage.jsx and `calculate_sankey_data`. -/
structure RevenueData where
  contributions : CatAmounts
  grants : CatAmounts
  earned_revenue : CatAmounts
  fundraising_events : CatAmounts
  sponsorships : CatAmounts
  other : CatAmounts
  total : CatAmounts
deriving DecidableEq

/-- The expense block, with the category keys used by ExpensePage.jsx and
`calculate_sankey_data`. -/
structure ExpenseData where
  salaries_wages : CatAmounts
  payroll_taxes : CatAmounts
  benefits : CatAmounts
  total : CatAmounts
deriving DecidableEq

/-- The reserve block of the FY26 annual data. -/
structure ReserveData where
  current_reserves : ℚ
  months_reserve : ℚ
deriving DecidableEq

/-- The loaded FY26 annual data (`annual_data` in `main`). -/
structure AnnualData where
  revenue : RevenueData
  expenses : ExpenseData
  reserves : ReserveData
deriving DecidableEq

/-- The sankey output record: positionally aligned labels, edge sources, edge
targets and edge values. -/
structure SankeyData where
  labels : List String
  sources : List Nat
  targets : List Nat
  values : List ℚ
deriving DecidableEq

/-- `payroll_total` from `calculate_sankey_data` (and ExpensePage.jsx line 57). -/
def payroll_total (expenses : ExpenseData) : ℚ :=
  expenses.salaries_wages.actual + expenses.payroll_taxes.actual + expenses.benefits.actual

/-- `operations_total` from `calculate_sankey_data` (and ExpensePage.jsx line 58). -/
def operations_total (expenses : ExpenseData) : ℚ :=
  expenses.total.actual - payroll_total expenses

/-- `calculate_sankey_data` from scripts/process_data.py: six revenue edges
into the hub node 6 ("Organization"), and two edges out of it to Payroll (7)
and Operations (8). -/
def calculate_sankey_data (annual : AnnualData) : SankeyData :=
  { labels := ["Contributions", "Grants", "Earned Revenue", "Events", "Sponsorships",
               "Other", "Organization", "Payroll", "Operations"]
    sources := [0, 1, 2, 3, 4, 5, 6, 6]
    targets := [6, 6, 6, 6, 6, 6, 7, 8]
    values := [annual.revenue.contributions.actual,
               annual.revenue.grants.actual,
               annual.revenue.earned_revenue.actual,
               annual.revenue.fundraising_events.actual,
               annual.revenue.sponsorships.actual,
               annual.revenue.other.actual,
               payroll_total annual.expenses,
               operations_total annual.expenses] }

/-- Sum of the values of the edges whose target is `node`. -/
def edge_flow_into (sk : SankeyData) (node : Nat) : ℚ :=
  (((sk.targets.zip sk.values).filter (fun p => p.1 == node)).map Prod.snd).sum

/-- Sum of the values of the edges whose source is `node`. -/
def edge_flow_out_of (sk : SankeyData) (node : Nat) : ℚ :=
  (((sk.sources.zip sk.values).filter (fun p => p.1 == node)).map Prod.snd).sum

/-- Sum of the six revenue-category actuals. -/
def revenue_actual_sum (r : RevenueData) : ℚ :=
  r.contributions.actual + r.grants.actual + r.earned_revenue.actual +
  r.fundraising_events.actual + r.sponsorships.actual + r.other.actual

/-- Agreement within 1e-6 relative tolerance, the tolerance named by the spec. -/
def relErrLe (a b : ℚ) : Prop :=
  |a - b| ≤ (1 / 1000000) * max |a| |b|

/-- Exact equality gives agreement within any relative tolerance. -/
theorem relErrLe_refl (a : ℚ) : relErrLe a a := by
  simp [relErrLe]

/-- The extraction loop over a list of mapped cells: each cell is normalized by
`clean_currency`; an uncaught failure propagates, exactly as a Python exception
raised inside a load function propagates out of it. -/
def extract_fields : List RawCell → Except PErr (List ℚ)
  | [] => Except.ok []
  | c :: cs =>
    match clean_currency c with
    | Except.error e => Except.error e
    | Except.ok v =>
      match extract_fields cs with
      | Except.error e => Except.error e
      | Except.ok vs => Except.ok (v :: vs)

/-- A raw category cell pair before normalization. -/
structure RawCat where
  actual : RawCell
  budgeted : RawCell

/-- The mapped revenue cells of the FY26 annual CSV. -/
structure RawRevenueSrc where
  contributions : RawCat
  grants : RawCat
  earned_revenue : RawCat
  fundraising_events : RawCat
  sponsorships : RawCat
  other : RawCat
  total : RawCat

/-- The mapped expense cells of the FY26 annual CSV. -/
structure RawExpenseSrc where
  salaries_wages : RawCat
  payroll_taxes : RawCat
  benefits : RawCat
  total : RawCat

/-- The mapped reserve cells of the FY26 annual CSV. -/
structure RawReserveSrc where
  current_reserves : RawCell
  months_reserve : RawCell

/-- An FY26 annual CSV, represented by its mapped cells (the positional
row/column mapping is fixed in the source, so a source table is faithfully
represented by the cells the mapping selects). -/
structure AnnualSrc where
  revenue : RawRevenueSrc
  expenses : RawExpenseSrc
  reserves : RawReserveSrc

/-- Normalize one category's pair of cells. -/
def load_raw_cat (rc : RawCat) : Except PErr CatAmounts := do
  let a ← clean_currency rc.actual
  let b ← clean_currency rc.budgeted
  pure ⟨a, b⟩

/-- `load_fy26_annual_data` from scripts/process_data.py: a missing CSV file
fails with `sourceNotFound` (pandas cannot open it); otherwise every mapped
cell is normalized, any normalization failure propagating uncaught. -/
def load_fy26_annual_data : Option AnnualSrc → Except PErr AnnualData
  | none => Except.error PErr.sourceNotFound
  | some src => do
    let contributions ← load_raw_cat src.revenue.contributions
    let grants ← load_raw_cat src.revenue.grants
    let earned_revenue ← load_raw_cat src.revenue.earned_revenue
    let fundraising_events ← load_raw_cat src.revenue.fundraising_events
    let sponsorships ← load_raw_cat src.revenue.sponsorships
    let other ← load_raw_cat src.revenue.other
    let revenue_total ← load_raw_cat src.revenue.total
    let salaries_wages ← load_raw_cat src.expenses.salaries_wages
    let payroll_taxes ← load_raw_cat src.expenses.payroll_taxes
    let benefits ← load_raw_cat src.expenses.benefits
    let expense_total ← load_raw_cat src.expenses.total
    let current_reserves ← clean_currency src.reserves.current_reserves
    let months_reserve ← clean_currency src.reserves.months_reserve
    pure
      { revenue := { contributions := contributions, grants := grants,
                     earned_revenue := earned_revenue,
                     fundraising_events := fundraising_events,
                     sponsorships := sponsorships, other := other,
                     total := revenue_total }
        expenses := { salaries_wages := salaries_wages,
                      payroll_taxes := payroll_taxes, benefits := benefits,
                      total := expense_total }
        reserves := { current_reserves := current_reserves,
                      months_reserve := months_reserve } }

/-- `load_summary_data` from scripts/process_data.py, reduced to its mapped
cells: missing file fails with `sourceNotFound`, otherwise all mapped cells
are normalized. -/
def load_summary_data : Option (List RawCell) → Except PErr (List ℚ)
  | none => Except.error PErr.sourceNotFound
  | some cells => extract_fields cells

/-- `load_program_data` from scripts/process_data.py, reduced likewise. -/
def load_program_data : Option (List RawCell) → Except PErr (List ℚ)
  | none => Except.error PErr.sourceNotFound
  | some cells => extract_fields cells

/-- `load_monthly_cashflow` from scripts/process_data.py, reduced likewise. -/
def load_monthly_cashflow : Option (List RawCell) → Except PErr (List ℚ)
  | none => Except.error PErr.sourceNotFound
  | some cells => extract_fields cells

/-- The executive-summary output record (`executive_summary` in `main`). -/
structure ExecutiveSummary where
  current_reserves : ℚ
  months_in_reserve : ℚ
  reserve_health : Health
  ytd_revenue : ℚ
  ytd_revenue_variance : ℚ
deriving DecidableEq

/-- The executive-summary computation from `main` in scripts/process_data.py. -/
def executive_summary (annual : AnnualData) : ExecutiveSummary :=
  let months := annual.reserves.months_reserve
  let health := reserve_health months
  { current_reserves := annual.reserves.current_reserves
    months_in_reserve := months
    reserve_health := health
    ytd_revenue := annual.revenue.total.actual
    ytd_revenue_variance := variance_pct annual.revenue.total.actual annual.revenue.total.budgeted }

/-- The seven output records `main` assembles. -/
structure Outputs where
  executive_summary : ExecutiveSummary
  historical_trends : List ℚ
  revenue_data : RevenueData
  expense_data : ExpenseData
  program_data : List ℚ
  cashflow_data : List ℚ
  sankey_data : SankeyData

/-- The pipeline's input: the source CSV files, each possibly missing. -/
structure PipelineInput where
  summary : Option (List RawCell)
  annual : Option AnnualSrc
  program : Option (List RawCell)
  cashflow : Option (List RawCell)

/-- `main` from scripts/process_data.py (named `pipeline_main` here because Lean
reserves `main` for program entry points): all loads and derivations run first,
any exception propagating (nothing is written in that case); all seven output
records are assembled and written only after every load has succeeded. -/
def pipeline_main (inp : PipelineInput) : Except PErr Outputs :=
  match load_summary_data inp.summary with
  | Except.error e => Except.error e
  | Except.ok summary_rows =>
  match load_fy26_annual_data inp.annual with
  | Except.error e => Except.error e
  | Except.ok annual =>
  match load_program_data inp.program with
  | Except.error e => Except.error e
  | Except.ok program_rows =>
  match load_monthly_cashflow inp.cashflow with
  | Except.error e => Except.error e
  | Except.ok cashflow_rows =>
    Except.ok
      { executive_summary := executive_summary annual
        historical_trends := summary_rows
        revenue_data := annual.revenue
        expense_data := annual.expenses
        program_data := program_rows
        cashflow_data := cashflow_rows
        sankey_data := calculate_sankey_data annual }

/-- The JSON files a run writes: none on a fatal error (the exception aborts
`main` before any `json.dump`), the seven record files on success. -/
def output_files : Except PErr Outputs → List String
  | Except.error _ => []
  | Except.ok _ =>
    ["executive_summary.json", "historical_trends.json", "revenue_data.json",
     "expense_data.json", "program_data.json", "cashflow_data.json", "sankey_data.json"]

/-- Modelled from the spec: the aggregation that builds a `total` record from
constituent categories.  The loader that assembles `revenue_data` and
`expense_data` (`load_fy26_annual_data`'s field extraction body) is not under
src, so the totals aggregation is taken from the spec's words: the total's
`actual` and `budgeted` are the sums of the constituent categories' values. -/
def aggregate_categories (cats : List CatAmounts) : CatAmounts :=
  { actual := (cats.map CatAmounts.actual).sum
    budgeted := (cats.map CatAmounts.budgeted).sum }

/-- Modelled from the spec: the `revenue_data` record assembled from its six
categories, with the `total` aggregate. -/
def assemble_revenue_data (c g er ev sp ot : CatAmounts) : RevenueData :=
  { contributions := c, grants := g, earned_revenue := er,
    fundraising_events := ev, sponsorships := sp, other := ot,
    total := aggregate_categories [c, g, er, ev, sp, ot] }

/-- The constituent (non-total) categories of a revenue record, in the fixed
declared order. -/
def revenue_categories (r : RevenueData) : List CatAmounts :=
  [r.contributions, r.grants, r.earned_revenue, r.fundraising_events, r.sponsorships, r.other]

/-- The concrete currency string used to exercise the normalizer. -/
theorem parse_currency_example :
    parseDecimal (stripCurrency "$1,234.56") = some (123456 / 100 : ℚ) := by
  have h : parseParts (stripCurrency "$1,234.56") = some ⟨false, 1234, 56, 2⟩ := by decide
  simp [parseDecimal, h, ratOfParts]
  norm_num

/-- Claim C3: for budgeted ≠ 0 the variance is `(actual − budgeted) / budgeted × 100`
(so actual 110 against budgeted 100 gives 10), and for budgeted = 0 the result
is the value 0 rather than an exception. -/
theorem variance_pct_correct :
    (∀ actual budgeted : ℚ, budgeted ≠ 0 →
        variance_pct actual budgeted = (actual - budgeted) / budgeted * 100) ∧
    variance_pct 110 100 = 10 ∧
    (∀ actual : ℚ, variance_pct actual 0 = 0) := by
  refine ⟨?_, ?_, ?_⟩
  · intro a b hb
    simp [variance_pct, safe_divide, hb]
  · norm_num [variance_pct, safe_divide]
  · intro a
    simp [variance_pct, safe_divide]

/-- Witness for C3 at actual 110, budgeted 100. -/
theorem variance_pct_correct_witness :
    (100 : ℚ) ≠ 0 ∧ variance_pct 110 100 = (110 - 100) / 100 * 100 :=
  ⟨by norm_num, variance_pct_correct.1 110 100 (by norm_num)⟩

/-- Claim C4: reserve health is good for months ≥ 3, warning for 2 ≤ months < 3
and critical for months < 2, each boundary belonging to the higher tier; in
particular 3 is good, 2.999 is warning, 1.999 is critical and 0 is critical. -/
theorem reserve_health_boundaries :
    (∀ m : ℚ, 3 ≤ m → reserve_health m = Health.good) ∧
    (∀ m : ℚ, 2 ≤ m → m < 3 → reserve_health m = Health.warning) ∧
    (∀ m : ℚ, m < 2 → reserve_health m = Health.critical) ∧
    reserve_health 3 = Health.good ∧
    reserve_health (2999 / 1000) = Health.warning ∧
    reserve_health (1999 / 1000) = Health.critical ∧
    reserve_health 0 = Health.critical := by
  refine ⟨?_, ?_, ?_, ?_, ?_, ?_, ?_⟩
  · intro m h
    simp [reserve_health, h]
  · intro m h1 h2
    rw [reserve_health, if_neg (by exact not_le.mpr h2), if_pos h1]
  · intro m h
    have h3 : ¬ (3 : ℚ) ≤ m := by linarith
    have h2 : ¬ (2 : ℚ) ≤ m := by linarith
    rw [reserve_health, if_neg h3, if_neg h2]
  · norm_num [reserve_health]
  · norm_num [reserve_health]
  · norm_num [reserve_health]
  · norm_num [reserve_health]

/-- Witness for C4 at the boundary months = 3. -/
theorem reserve_health_boundaries_witness :
    (3 : ℚ) ≤ 3 ∧ reserve_health 3 = Health.good :=
  ⟨le_refl 3, reserve_health_boundaries.1 3 (le_refl 3)⟩

/-- Claim C5: the numeric normalizer maps an absent cell to 0, passes numeric
cells through unchanged, strips currency punctuation from strings and parses
the remainder as a decimal, and maps strings empty after stripping to 0. -/
theorem clean_currency_normalizer :
    clean_currency RawCell.absent = Except.ok 0 ∧
    (∀ q : ℚ, clean_currency (RawCell.num q) = Except.ok q) ∧
    (∀ (s : String) (q : ℚ), startsWithHash s = false → stripCurrency s ≠ "" →
        parseDecimal (stripCurrency s) = some q →
        clean_currency (RawCell.str s) = Except.ok q) ∧
    (∀ s : String, startsWithHash s = false → stripCurrency s = "" →
        clean_currency (RawCell.str s) = Except.ok 0) := by
  refine ⟨rfl, fun q => rfl, ?_, ?_⟩
  · intro s q h1 h2 h3
    by_cases hs : s = ""
    · subst hs
      simp [stripCurrency, trimWS] at h2
    · simp [clean_currency, h1, hs, h2, h3]
  · intro s h1 h2
    by_cases hs : s = ""
    · subst hs
      simp [clean_currency]
    · simp [clean_currency, h1, hs, h2]

/-- Witness for C5 on the currency string `$1,234.56`. -/
theorem clean_currency_normalizer_witness :
    startsWithHash "$1,234.56" = false ∧ stripCurrency "$1,234.56" ≠ "" ∧
    parseDecimal (stripCurrency "$1,234.56") = some (123456 / 100 : ℚ) ∧
    clean_currency (RawCell.str "$1,234.56") = Except.ok (123456 / 100 : ℚ) :=
  ⟨by decide, by decide, parse_currency_example,
   clean_currency_normalizer.2.2.1 "$1,234.56" (123456 / 100) (by decide) (by decide)
     parse_currency_example⟩

/-- Claim C10: `safe_float` is total — every cell yields a numeric value, never
an exception; absent and error-token cells give 0, numbers pass through, and
any string the parser rejects gives 0 instead of propagating an error. -/
theorem safe_float_total_function :
    safe_float RawCell.absent = 0 ∧
    (∀ q : ℚ, safe_float (RawCell.num q) = q) ∧
    (∀ s : String, startsWithHash s = true → safe_float (RawCell.str s) = 0) ∧
    (∀ (s : String) (q : ℚ), startsWithHash s = false → parseDecimal s = some q →
        safe_float (RawCell.str s) = q) ∧
    (∀ s : String, startsWithHash s = false → parseDecimal s = none →
        safe_float (RawCell.str s) = 0) := by
  refine ⟨rfl, fun q => rfl, ?_, ?_, ?_⟩
  · intro s h
    simp [safe_float, h]
  · intro s q h1 h2
    simp [safe_float, h1, h2]
  · intro s h1 h2
    simp [safe_float, h1, h2]

/-- Witness for C10 on the unparseable string `abc`. -/
theorem safe_float_total_function_witness :
    startsWithHash "abc" = false ∧ parseDecimal "abc" = none ∧
    safe_float (RawCell.str "abc") = 0 :=
  ⟨by decide, by decide, safe_float_total_function.2.2.2.2 "abc" (by decide) (by decide)⟩

/-- The conservation property claim C1 asserts, stated from the spec's words
for comparison with the code's flow graph: the hub's inbound and outbound edge
values agree within tolerance. -/
def spec_hub_conservation (annual : AnnualData) : Prop :=
  relErrLe (edge_flow_into (calculate_sankey_data annual) 6)
    (edge_flow_out_of (calculate_sankey_data annual) 6)

/-- A pipeline input whose revenue actuals total 100 while the expense actual
total is 50 (a surplus year). -/
def unbalanced_annual : AnnualData :=
  { revenue := { contributions := ⟨100, 0⟩, grants := ⟨0, 0⟩, earned_revenue := ⟨0, 0⟩,
                 fundraising_events := ⟨0, 0⟩, sponsorships := ⟨0, 0⟩, other := ⟨0, 0⟩,
                 total := ⟨100, 0⟩ }
    expenses := { salaries_wages := ⟨0, 0⟩, payroll_taxes := ⟨0, 0⟩, benefits := ⟨0, 0⟩,
                  total := ⟨50, 0⟩ }
    reserves := ⟨0, 0⟩ }

/-- Counterexample to claim C1: on a surplus input the hub's inbound flow (the
revenue actuals, 100) and outbound flow (the expense total, 50) differ far
beyond tolerance, so the graph does not conserve value at the hub. -/
theorem sankey_conservation_cx : ¬ spec_hub_conservation unbalanced_annual := by
  have h1 : edge_flow_into (calculate_sankey_data unbalanced_annual) 6 = 100 := by
    simp [edge_flow_into, calculate_sankey_data, unbalanced_annual]
  have h2 : edge_flow_out_of (calculate_sankey_data unbalanced_annual) 6 = 50 := by
    simp [edge_flow_out_of, calculate_sankey_data, unbalanced_annual,
      payroll_total, operations_total]
  simp [spec_hub_conservation, h1, h2, relErrLe]
  norm_num

/-- Claim C1 (amended): the inbound hub flow equals the sum of the six
revenue-category actuals, the outbound hub flow equals the total expense
actual exactly (the payroll and operations aggregates cancel), and so the
graph conserves value at the hub precisely when those two totals agree within
tolerance — which a valid input need not satisfy. -/
theorem sankey_hub_flows :
    ∀ annual : AnnualData,
      edge_flow_into (calculate_sankey_data annual) 6 = revenue_actual_sum annual.revenue ∧
      edge_flow_out_of (calculate_sankey_data annual) 6 = annual.expenses.total.actual ∧
      (spec_hub_conservation annual ↔
        relErrLe (revenue_actual_sum annual.revenue) annual.expenses.total.actual) := by
  intro annual
  have h1 : edge_flow_into (calculate_sankey_data annual) 6
      = revenue_actual_sum annual.revenue := by
    simp [edge_flow_into, calculate_sankey_data, revenue_actual_sum]
    ring
  have h2 : edge_flow_out_of (calculate_sankey_data annual) 6
      = annual.expenses.total.actual := by
    simp [edge_flow_out_of, calculate_sankey_data, payroll_total, operations_total]
  refine ⟨h1, h2, ?_⟩
  unfold spec_hub_conservation
  rw [h1, h2]

/-- Claim C2: after aggregation, the total record's actual and budgeted equal
the sums of the constituent categories' corresponding values, within 1e-6
relative tolerance; stated for the spec-modelled revenue assembly and for the
aggregation of an arbitrary category list (the expense case). -/
theorem totals_sum_invariant :
    (∀ c g er ev sp ot : CatAmounts,
        relErrLe (assemble_revenue_data c g er ev sp ot).total.actual
          (((revenue_categories (assemble_revenue_data c g er ev sp ot)).map
              CatAmounts.actual).sum) ∧
        relErrLe (assemble_revenue_data c g er ev sp ot).total.budgeted
          (((revenue_categories (assemble_revenue_data c g er ev sp ot)).map
              CatAmounts.budgeted).sum)) ∧
    (∀ cats : List CatAmounts,
        relErrLe (aggregate_categories cats).actual ((cats.map CatAmounts.actual).sum) ∧
        relErrLe (aggregate_categories cats).budgeted ((cats.map CatAmounts.budgeted).sum)) := by
  constructor
  · intro c g er ev sp ot
    have ha : (assemble_revenue_data c g er ev sp ot).total.actual
        = ((revenue_categories (assemble_revenue_data c g er ev sp ot)).map
            CatAmounts.actual).sum := by
      simp [assemble_revenue_data, revenue_categories, aggregate_categories]
    have hb : (assemble_revenue_data c g er ev sp ot).total.budgeted
        = ((revenue_categories (assemble_revenue_data c g er ev sp ot)).map
            CatAmounts.budgeted).sum := by
      simp [assemble_revenue_data, revenue_categories, aggregate_categories]
    exact ⟨by rw [ha]; exact relErrLe_refl _, by rw [hb]; exact relErrLe_refl _⟩
  · intro cats
    exact ⟨relErrLe_refl _, relErrLe_refl _⟩

/-- A recorded diagnostic, as the spec's taxonomy describes it. -/
inductive Diagnostic
  | sourceDataError (raw : String)
deriving DecidableEq

/-- The normalizer records no diagnostics: `clean_currency` returns a bare
value, and the source has no diagnostics list, logging call or accumulator
anywhere, so the diagnostics stream of a normalization call is empty. -/
def clean_currency_diagnostics : RawCell → List Diagnostic := fun _ => []

/-- The recording behaviour claim C6 asserts, stated from the spec's words for
comparison with the code: normalizing an error-token cell records exactly one
SourceDataError diagnostic. -/
def spec_records_source_data_error (c : RawCell) : Prop :=
  (clean_currency_diagnostics c).length = 1

/-- Counterexample to claim C6: normalizing `#REF!` yields 0 without aborting,
but no SourceDataError diagnostic is recorded — the code records nothing. -/
theorem error_token_diagnostic_cx :
    clean_currency (RawCell.str "#REF!") = Except.ok 0 ∧
    ¬ spec_records_source_data_error (RawCell.str "#REF!") := by
  constructor
  · rfl
  · simp [spec_records_source_data_error, clean_currency_diagnostics]

/-- Claim C6 (amended): a cell whose string begins with the error-token marker
normalizes to the value 0 without aborting the run, and no diagnostic is
recorded. -/
theorem error_token_yields_zero :
    ∀ s : String, startsWithHash s = true →
      clean_currency (RawCell.str s) = Except.ok 0 ∧
      clean_currency_diagnostics (RawCell.str s) = [] := by
  intro s h
  exact ⟨by simp [clean_currency, h], rfl⟩

/-- Witness for the amended C6 on the cell `#REF!`. -/
theorem error_token_yields_zero_witness :
    startsWithHash "#REF!" = true ∧
    (clean_currency (RawCell.str "#REF!") = Except.ok 0 ∧
     clean_currency_diagnostics (RawCell.str "#REF!") = []) :=
  ⟨by decide, error_token_yields_zero "#REF!" (by decide)⟩

/-- Whether a run of the extraction produced output (claim C7 predicts the run
continues when one field's cell is unparseable). -/
def run_continues : Except PErr (List ℚ) → Bool
  | Except.ok _ => true
  | Except.error _ => false

/-- Counterexample to claim C7: with an unparseable cell `abc` followed by a
healthy numeric cell, the whole extraction fails — the parse failure is not
confined to the single field, and the error carries only the cleaned string,
no logical field name. -/
theorem unparseable_field_cx :
    run_continues (extract_fields [RawCell.str "abc", RawCell.num 5]) = false ∧
    extract_fields [RawCell.str "abc", RawCell.num 5] =
      Except.error (PErr.numericParse "abc") := by
  exact ⟨rfl, rfl⟩

/-- Claim C7 (amended): an unparseable string makes `clean_currency` fail with
a parse error carrying the cleaned string (not the field name), and — nothing
catching it — the failure aborts the entire extraction, not just that field;
when `safe_float` is the normalizer instead, no failure occurs at all and the
value is 0. -/
theorem unparseable_aborts_extraction :
    (∀ s : String, startsWithHash s = false → s ≠ "" → stripCurrency s ≠ "" →
        parseDecimal (stripCurrency s) = none →
        ∀ rest : List RawCell,
          extract_fields (RawCell.str s :: rest) =
            Except.error (PErr.numericParse (stripCurrency s))) ∧
    (∀ s : String, startsWithHash s = false → parseDecimal s = none →
        safe_float (RawCell.str s) = 0) := by
  constructor
  · intro s h1 h2 h3 h4 rest
    have hc : clean_currency (RawCell.str s) =
        Except.error (PErr.numericParse (stripCurrency s)) := by
      simp [clean_currency, h1, h2, h3, h4]
    simp [extract_fields, hc]
  · intro s h1 h2
    simp [safe_float, h1, h2]

/-- Witness for the amended C7 on the cell `abc`. -/
theorem unparseable_aborts_extraction_witness :
    startsWithHash "abc" = false ∧ "abc" ≠ "" ∧ stripCurrency "abc" ≠ "" ∧
    parseDecimal (stripCurrency "abc") = none ∧
    extract_fields [RawCell.str "abc", RawCell.num 5] =
      Except.error (PErr.numericParse (stripCurrency "abc")) :=
  ⟨by decide, by decide, by decide, by decide,
   unparseable_aborts_extraction.1 "abc" (by decide) (by decide) (by decide) (by decide)
     [RawCell.num 5]⟩

/-- Claim C8: the run is all-or-nothing — every input yields either zero output
files or all seven, and a missing source file fails the run with
SourceNotFoundError and writes nothing. -/
theorem all_or_nothing :
    (∀ inp : PipelineInput,
        (output_files (pipeline_main inp)).length = 0 ∨
        (output_files (pipeline_main inp)).length = 7) ∧
    (∀ inp : PipelineInput, inp.summary = none →
        pipeline_main inp = Except.error PErr.sourceNotFound ∧
        output_files (pipeline_main inp) = []) := by
  constructor
  · intro inp
    cases h : pipeline_main inp with
    | error e =>
      left
      simp [output_files, h]
    | ok o =>
      right
      simp [output_files, h]
  · intro inp h
    have hm : pipeline_main inp = Except.error PErr.sourceNotFound := by
      simp [pipeline_main, h, load_summary_data]
    exact ⟨hm, by simp [output_files, hm]⟩

/-- A pipeline input with every source file missing. -/
def missing_input : PipelineInput :=
  { summary := none, annual := none, program := none, cashflow := none }

/-- Witness for C8 on an input whose summary source file is missing. -/
theorem all_or_nothing_witness :
    missing_input.summary = none ∧
    (pipeline_main missing_input = Except.error PErr.sourceNotFound ∧
     output_files (pipeline_main missing_input) = []) :=
  ⟨rfl, all_or_nothing.2 missing_input rfl⟩

/-- A flow-graph warning, as the spec's taxonomy describes it. -/
inductive FlowWarning
  | negativeFlowValue (v : ℚ)
deriving DecidableEq

/-- The flow-graph builder emits no warnings: `calculate_sankey_data` has no
logging or warning mechanism anywhere in the source, so the warning stream of
a build is empty. -/
def calculate_sankey_warnings : AnnualData → List FlowWarning := fun _ => []

/-- The surfacing behaviour claim C9 asserts, stated from the spec's words for
comparison with the code: a negative operations aggregate is surfaced as a
warning. -/
def spec_surfaces_negative_flow (annual : AnnualData) : Prop :=
  operations_total annual.expenses < 0 → calculate_sankey_warnings annual ≠ []

/-- Expense data whose payroll actuals (100) exceed the total expense actual
(50), making the operations aggregate negative. -/
def payroll_heavy_annual : AnnualData :=
  { revenue := { contributions := ⟨0, 0⟩, grants := ⟨0, 0⟩, earned_revenue := ⟨0, 0⟩,
                 fundraising_events := ⟨0, 0⟩, sponsorships := ⟨0, 0⟩, other := ⟨0, 0⟩,
                 total := ⟨0, 0⟩ }
    expenses := { salaries_wages := ⟨100, 0⟩, payroll_taxes := ⟨0, 0⟩, benefits := ⟨0, 0⟩,
                  total := ⟨50, 0⟩ }
    reserves := ⟨0, 0⟩ }

/-- Counterexample to claim C9: on payroll-heavy data the operations aggregate
is negative, yet no NegativeFlowValueWarning is surfaced — the code emits no
warnings. -/
theorem negative_flow_warning_cx :
    operations_total payroll_heavy_annual.expenses < 0 ∧
    ¬ spec_surfaces_negative_flow payroll_heavy_annual := by
  have hneg : operations_total payroll_heavy_annual.expenses < 0 := by
    norm_num [operations_total, payroll_total, payroll_heavy_annual]
  refine ⟨hneg, fun h => h hneg rfl⟩

/-- Claim C9 (amended): the payroll aggregate is the sum of the salaries,
payroll-tax and benefits actuals and the operations aggregate is the total
expense actual minus the payroll aggregate, both placed as the hub's outbound
edge values; a negative operations aggregate is passed through unmodified (not
clamped), but no warning is surfaced. -/
theorem sankey_expense_aggregates :
    (∀ annual : AnnualData,
        (calculate_sankey_data annual).values[6]? =
          some (annual.expenses.salaries_wages.actual +
                annual.expenses.payroll_taxes.actual +
                annual.expenses.benefits.actual) ∧
        (calculate_sankey_data annual).values[7]? =
          some (annual.expenses.total.actual - payroll_total annual.expenses) ∧
        calculate_sankey_warnings annual = []) ∧
    (calculate_sankey_data payroll_heavy_annual).values[7]? = some (-50 : ℚ) := by
  constructor
  · intro annual
    refine ⟨?_, ?_, rfl⟩
    · simp [calculate_sankey_data, payroll_total]
    · simp [calculate_sankey_data, operations_total]
  · norm_num [calculate_sankey_data, operations_total, payroll_total, payroll_heavy_annual]
